import Mathlib

/-!
Verification development for a browser-based image editor.

The development shallowly embeds the editor's pure logic:
the page-level session state (which of the uploaded / cropped / filtered /
edited buffers is current), the annotation editor's snapshot history stack
with undo/redo, the display-to-buffer coordinate mapper, the crop-region
drag clamping, the export dimension lock, and the filter composer.

Conventions of the embedding:
* JavaScript numbers are modelled as rationals; where a JS operation can
  produce a non-finite value (division by zero giving Infinity or NaN) the
  result type is an `Option` with `none` standing for any non-finite value.
* JS string-or-null values are `Option String`; the falsiness of both
  `null` and the empty string is modelled explicitly.
* Canvas contents are a free algebra of 2D-context drawing operations, so
  two canvases are equal exactly when the same operations were applied to
  the same base image in the same order.
-/

namespace ImageProcessing

/-! ### JavaScript semantics helpers -/

/-- A JS string-or-null value is falsy when it is `null` or the empty
string; this is the test `||` performs on such values. -/
def jsFalsy : Option String → Bool
  | none => true
  | some s => s = ""

/-- JS `a || b` on string-or-null values. -/
def jsOr (a b : Option String) : Option String :=
  if jsFalsy a then b else a

/-- JS `Array.prototype.slice(0, e)`: a negative end index counts from the
end of the array, and the resulting bound is clamped to `[0, length]`. -/
def jsSliceTo {α : Type} (l : List α) (e : ℤ) : List α :=
  l.take (if e < 0 then ((l.length : ℤ) + e).toNat else e.toNat)

/-- JS `Math.round`: round half toward positive infinity. -/
def jsRound (q : ℚ) : ℤ := ⌊q + 1 / 2⌋

/-- JS division where a zero denominator yields a non-finite value
(`Infinity` or `NaN`), modelled as `none`. -/
def qdiv (a b : ℚ) : Option ℚ := if b = 0 then none else some (a / b)

/-- JS multiplication of a finite number by a possibly-non-finite number:
a non-finite factor makes the product non-finite (`Infinity * x` and
`NaN * x` are never finite). -/
def jsMul (a : ℚ) (b : Option ℚ) : Option ℚ := b.map (fun q => a * q)

/-! ### Session state (`src/app/page.tsx`)

The page owns four image references; `currentImage` and the `imageSrc`
props handed to each stage are JS `||` chains over them. -/

structure SessionState where
  uploadedImage : Option String
  croppedImage : Option String
  filteredImage : Option String
  editedImage : Option String
deriving DecidableEq

/-- `editedImage || filteredImage || croppedImage || uploadedImage`. -/
def currentImage (s : SessionState) : Option String :=
  jsOr (jsOr (jsOr s.editedImage s.filteredImage) s.croppedImage) s.uploadedImage

/-- The `imageSrc` prop of the `ImageCropper` invocation:
`editedImage || filteredImage || croppedImage || uploadedImage`. -/
def cropperImageSrc (s : SessionState) : Option String :=
  jsOr (jsOr (jsOr s.editedImage s.filteredImage) s.croppedImage) s.uploadedImage

/-- The `imageSrc` prop of the `ImageFilters` invocation:
`editedImage || croppedImage || uploadedImage` (the filtered image is
deliberately absent from the chain). -/
def filtersImageSrc (s : SessionState) : Option String :=
  jsOr (jsOr s.editedImage s.croppedImage) s.uploadedImage

/-- The `imageSrc` prop of the `ImageEditorTools` invocation:
`filteredImage || croppedImage || uploadedImage`. -/
def editorImageSrc (s : SessionState) : Option String :=
  jsOr (jsOr s.filteredImage s.croppedImage) s.uploadedImage

/-- `handleCropComplete`: store the cropped result, clear the filtered and
edited references. -/
def handleCropComplete (s : SessionState) (img : String) : SessionState :=
  { s with croppedImage := some img, filteredImage := none, editedImage := none }

/-- `handleFiltersApply`: store the filtered result, clear the edited
reference. -/
def handleFiltersApply (s : SessionState) (img : String) : SessionState :=
  { s with filteredImage := some img, editedImage := none }

/-! ### Annotation editor (`ImageEditorTools`) -/

inductive Tool
  | brush
  | text
  | rectangle
  | circle
  | arrow
deriving DecidableEq

/-- Canvas contents as a free algebra of the 2D-context operations the
editor performs.  `undef` is the content shown for an out-of-range history
access (a JS `undefined` image source never completes loading).
`strokeCircle` records the centre and the current pointer position; the
drawn radius is the distance between the two. -/
inductive Img
  | undef : Img
  | base : ℕ → Img
  | strokeLine (img : Img) (x1 y1 x2 y2 : ℚ) (color : String) (size : ℚ) : Img
  | strokeRect (img : Img) (x y w h : ℚ) (color : String) (size : ℚ) : Img
  | strokeCircle (img : Img) (cx cy px py : ℚ) (color : String) (size : ℚ) : Img
  | arrow (img : Img) (x1 y1 x2 y2 : ℚ) (color : String) (size : ℚ) : Img
  | text (img : Img) (x y : ℚ) (s : String) (color : String) (fontSize : ℚ) : Img
deriving DecidableEq

structure DrawingState where
  tool : Tool
  color : String
  brushSize : ℚ
  isDrawing : Bool
  lastX : ℚ
  lastY : ℚ
deriving DecidableEq

structure TextElement where
  id : String
  x : ℚ
  y : ℚ
  text : String
  color : String
  fontSize : ℚ
  isEditing : Bool
deriving DecidableEq

structure EditorState where
  drawingState : DrawingState
  textElements : List TextElement
  newText : String
  fontSize : ℚ
  history : List Img
  historyStep : ℤ
  canvas : Img
deriving DecidableEq

/-- JS `history[i]`: out-of-range access yields `undefined`. -/
def jsIndex (l : List Img) (i : ℤ) : Img :=
  if 0 ≤ i then l.getD i.toNat Img.undef else Img.undef

/-- `getCanvasCoordinates`: scale the pointer position from the rendered
box into buffer space.  The only guard in the code is on the canvas ref
being present; the scale factors divide by the rendered box's dimensions
with no zero check. -/
def getCanvasCoordinates (canvasPresent : Bool)
    (canvasW canvasH rectW rectH clientX clientY rectLeft rectTop : ℚ) :
    Option ℚ × Option ℚ :=
  if canvasPresent = false then (some 0, some 0)
  else
    (jsMul (clientX - rectLeft) (qdiv canvasW rectW),
     jsMul (clientY - rectTop) (qdiv canvasH rectH))

/-- `saveToHistory`: truncate the history after the cursor
(`prev.slice(0, historyStep + 1)`), append the current canvas snapshot,
and advance the cursor. -/
def saveToHistory (s : EditorState) : EditorState :=
  { s with
    history := jsSliceTo s.history (s.historyStep + 1) ++ [s.canvas]
    historyStep := s.historyStep + 1 }

/-- `undo`: guarded by `historyStep > 0`; decrement the cursor and redraw
the canvas from `history[historyStep - 1]`. -/
def undo (s : EditorState) : EditorState :=
  if 0 < s.historyStep then
    { s with
      historyStep := s.historyStep - 1
      canvas := jsIndex s.history (s.historyStep - 1) }
  else s

/-- `redo`: guarded by `historyStep < history.length - 1`; increment the
cursor and redraw the canvas from `history[historyStep + 1]`. -/
def redo (s : EditorState) : EditorState :=
  if s.historyStep < (s.history.length : ℤ) - 1 then
    { s with
      historyStep := s.historyStep + 1
      canvas := jsIndex s.history (s.historyStep + 1) }
  else s

/-- `startDrawing`: with the text tool, append a new text element (using
`newText || "Sample Text"`) and return without touching the drawing state;
`tid` stands for the `Date.now().toString()` identifier.  With any other
tool, set `isDrawing` and record the pointer position as `lastX`/`lastY`. -/
def startDrawing (s : EditorState) (x y : ℚ) (tid : String) : EditorState :=
  if s.drawingState.tool = Tool.text then
    { s with
      textElements := s.textElements ++
        [{ id := tid, x := x, y := y
           text := if s.newText = "" then "Sample Text" else s.newText
           color := s.drawingState.color
           fontSize := s.fontSize
           isEditing := true }] }
  else
    { s with
      drawingState :=
        { s.drawingState with isDrawing := true, lastX := x, lastY := y } }

/-- `draw` (the pointer-move handler): no-op unless a gesture is active.
The brush strokes a segment onto the live canvas; the rectangle, circle
and arrow tools clear the canvas, redraw `history[historyStep]`, and
stroke the shape between `(lastX, lastY)` and the current point.  In every
active branch `lastX`/`lastY` are then updated to the current point. -/
def draw (s : EditorState) (x y : ℚ) : EditorState :=
  if s.drawingState.isDrawing = false then s
  else
    let ds := s.drawingState
    let canvas1 :=
      match ds.tool with
      | Tool.brush =>
          Img.strokeLine s.canvas ds.lastX ds.lastY x y ds.color ds.brushSize
      | Tool.rectangle =>
          Img.strokeRect (jsIndex s.history s.historyStep)
            ds.lastX ds.lastY (x - ds.lastX) (y - ds.lastY) ds.color ds.brushSize
      | Tool.circle =>
          Img.strokeCircle (jsIndex s.history s.historyStep)
            ds.lastX ds.lastY x y ds.color ds.brushSize
      | Tool.arrow =>
          Img.arrow (jsIndex s.history s.historyStep)
            ds.lastX ds.lastY x y ds.color ds.brushSize
      | Tool.text => s.canvas
    { s with
      canvas := canvas1
      drawingState := { ds with lastX := x, lastY := y } }

/-- `stopDrawing`: if a gesture is active, clear `isDrawing` and commit a
snapshot via `saveToHistory`; otherwise do nothing. -/
def stopDrawing (s : EditorState) : EditorState :=
  if s.drawingState.isDrawing = true then
    saveToHistory
      { s with drawingState := { s.drawingState with isDrawing := false } }
  else s

/-- `renderTextElements`: draw every text element onto the canvas, in list
order.  It never touches the history. -/
def renderTextElements (s : EditorState) : EditorState :=
  { s with
    canvas := s.textElements.foldl
      (fun img te => Img.text img te.x te.y te.text te.color te.fontSize)
      s.canvas }

/-! ### Crop region (`src/components/image-cropper.tsx`) -/

structure CropArea where
  x : ℚ
  y : ℚ
  width : ℚ
  height : ℚ
deriving DecidableEq

/-- `handleMouseMove`: while dragging, the region's position becomes the
pointer position minus the grab offset, clamped independently on each axis
to `[0, containerSize - regionSize]` via `max 0 (min new max)`; the size
is untouched.  The container is assumed mounted (its dimensions are
parameters); when not dragging the handler returns without updating. -/
def handleMouseMove (isDragging : Bool) (crop : CropArea)
    (dragStartX dragStartY clientX clientY rectLeft rectTop
      containerW containerH : ℚ) : CropArea :=
  if isDragging = false then crop
  else
    let newX := clientX - rectLeft - dragStartX
    let newY := clientY - rectTop - dragStartY
    let maxX := containerW - crop.width
    let maxY := containerH - crop.height
    { crop with x := max 0 (min newX maxX), y := max 0 (min newY maxY) }

/-! ### Export dimensions (`src/components/image-download.tsx`)

`lockAspect` models the `maintainAspectRatio` setting. -/

structure Dimensions where
  width : ℤ
  height : ℤ
deriving DecidableEq

/-- `updateWidth`: with the aspect lock on and a positive original width,
the height is recomputed from the original dimensions
(`Math.round(width * originalHeight / originalWidth)`); the previous
custom dimensions contribute nothing.  Otherwise only the width of the
previous custom dimensions is replaced. -/
def updateWidth (lockAspect : Bool) (orig prev : Dimensions) (w : ℤ) :
    Dimensions :=
  if lockAspect = true ∧ 0 < orig.width then
    { width := w
      height := jsRound ((w : ℚ) * ((orig.height : ℚ) / (orig.width : ℚ))) }
  else { prev with width := w }

/-- `updateHeight`: symmetric to `updateWidth`. -/
def updateHeight (lockAspect : Bool) (orig prev : Dimensions) (h : ℤ) :
    Dimensions :=
  if lockAspect = true ∧ 0 < orig.height then
    { width := jsRound ((h : ℚ) * ((orig.width : ℚ) / (orig.height : ℚ)))
      height := h }
  else { prev with height := h }

/-! ### Filter composer (`src/components/image-filters.tsx`)

`FilterValues`, `defaultFilters` and `generateFilterString` are embedded
from the source.  The pixel semantics of applying the produced filter list
are not code of this repository (the browser's canvas rasterizer applies
`ctx.filter`); they are modelled from the spec. -/

structure FilterValues where
  brightness : ℚ
  contrast : ℚ
  saturation : ℚ
  blur : ℚ
  hueRotate : ℚ
  sepia : ℚ
  grayscale : ℚ
  invert : ℚ
deriving DecidableEq

def defaultFilters : FilterValues :=
  { brightness := 100, contrast := 100, saturation := 100, blur := 0
    hueRotate := 0, sepia := 0, grayscale := 0, invert := 0 }

/-- `generateFilterString`, the fixed ordering of the eight operations. -/
def generateFilterString (fv : FilterValues) : String :=
  "brightness(" ++ toString fv.brightness ++ "%) contrast("
    ++ toString fv.contrast ++ "%) saturate(" ++ toString fv.saturation
    ++ "%) blur(" ++ toString fv.blur ++ "px) hue-rotate("
    ++ toString fv.hueRotate ++ "deg) sepia(" ++ toString fv.sepia
    ++ "%) grayscale(" ++ toString fv.grayscale ++ "%) invert("
    ++ toString fv.invert ++ "%)"

/-- A color sample with rational channels in the unit interval. -/
structure Pixel where
  r : ℚ
  g : ℚ
  b : ℚ
  a : ℚ
deriving DecidableEq

/-- A raster of pixels. -/
structure Buffer where
  width : ℕ
  height : ℕ
  pix : Fin height → Fin width → Pixel

/-- Apply a pointwise color transform to every pixel. -/
def mapPixels (f : Pixel → Pixel) (buf : Buffer) : Buffer :=
  { width := buf.width, height := buf.height
    pix := fun i j => f (buf.pix i j) }

/-- Modelled from the spec: the `brightness(p%)` primitive of the canvas
rasterizer (absent from src/), a linear scaling of each color channel;
`p = 100` is the identity. -/
def brightnessPx (amount : ℚ) (p : Pixel) : Pixel :=
  ⟨p.r * (amount / 100), p.g * (amount / 100), p.b * (amount / 100), p.a⟩

/-- Modelled from the spec: the `contrast(p%)` primitive (absent from
src/), a linear interpolation about the mid gray; `p = 100` is the
identity. -/
def contrastPx (amount : ℚ) (p : Pixel) : Pixel :=
  ⟨(p.r - 1 / 2) * (amount / 100) + 1 / 2,
   (p.g - 1 / 2) * (amount / 100) + 1 / 2,
   (p.b - 1 / 2) * (amount / 100) + 1 / 2, p.a⟩

/-- The ITU-R BT.709 luminance of a pixel, used by saturation and
grayscale. -/
def lumin (p : Pixel) : ℚ :=
  (2126 / 10000) * p.r + (7152 / 10000) * p.g + (722 / 10000) * p.b

/-- Modelled from the spec: the `saturate(p%)` primitive (absent from
src/), interpolating each channel between the pixel's luminance and its
original value; `p = 100` is the identity. -/
def saturatePx (amount : ℚ) (p : Pixel) : Pixel :=
  ⟨lumin p + (p.r - lumin p) * (amount / 100),
   lumin p + (p.g - lumin p) * (amount / 100),
   lumin p + (p.b - lumin p) * (amount / 100), p.a⟩

/-- A rational approximation of pi, for converting filter degrees to
radians. -/
def piRat : ℚ := 355 / 113

/-- Truncated Taylor series for cosine; exact at zero. -/
def cosRat (t : ℚ) : ℚ := 1 - t ^ 2 / 2 + t ^ 4 / 24 - t ^ 6 / 720

/-- Truncated Taylor series for sine; exact at zero. -/
def sinRat (t : ℚ) : ℚ := t - t ^ 3 / 6 + t ^ 5 / 120 - t ^ 7 / 5040

/-- Modelled from the spec: the `hue-rotate(deg)` primitive (absent from
src/), the standard hue-rotation color matrix; `deg = 0` makes the matrix
the identity. -/
def hueRotatePx (deg : ℚ) (p : Pixel) : Pixel :=
  let t := deg * piRat / 180
  let c := cosRat t
  let s := sinRat t
  ⟨(213 / 1000 + (787 / 1000) * c - (213 / 1000) * s) * p.r
     + (715 / 1000 - (715 / 1000) * c - (715 / 1000) * s) * p.g
     + (72 / 1000 - (72 / 1000) * c + (928 / 1000) * s) * p.b,
   (213 / 1000 - (213 / 1000) * c + (143 / 1000) * s) * p.r
     + (715 / 1000 + (285 / 1000) * c + (140 / 1000) * s) * p.g
     + (72 / 1000 - (72 / 1000) * c - (283 / 1000) * s) * p.b,
   (213 / 1000 - (213 / 1000) * c - (787 / 1000) * s) * p.r
     + (715 / 1000 - (715 / 1000) * c + (715 / 1000) * s) * p.g
     + (72 / 1000 + (928 / 1000) * c + (72 / 1000) * s) * p.b,
   p.a⟩

/-- Modelled from the spec: the `sepia(p%)` primitive (absent from src/),
interpolating toward the sepia color matrix; `p = 0` is the identity. -/
def sepiaPx (amount : ℚ) (p : Pixel) : Pixel :=
  let t := amount / 100
  ⟨(1 - t) * p.r
     + t * ((393 / 1000) * p.r + (769 / 1000) * p.g + (189 / 1000) * p.b),
   (1 - t) * p.g
     + t * ((349 / 1000) * p.r + (686 / 1000) * p.g + (168 / 1000) * p.b),
   (1 - t) * p.b
     + t * ((272 / 1000) * p.r + (534 / 1000) * p.g + (131 / 1000) * p.b),
   p.a⟩

/-- Modelled from the spec: the `grayscale(p%)` primitive (absent from
src/), interpolating toward the pixel's luminance; `p = 0` is the
identity. -/
def grayscalePx (amount : ℚ) (p : Pixel) : Pixel :=
  let t := amount / 100
  ⟨(1 - t) * p.r + t * lumin p,
   (1 - t) * p.g + t * lumin p,
   (1 - t) * p.b + t * lumin p, p.a⟩

/-- Modelled from the spec: the `invert(p%)` primitive (absent from src/),
interpolating toward the channel complement; `p = 0` is the identity. -/
def invertPx (amount : ℚ) (p : Pixel) : Pixel :=
  let t := amount / 100
  ⟨t * (1 - p.r) + (1 - t) * p.r,
   t * (1 - p.g) + (1 - t) * p.g,
   t * (1 - p.b) + (1 - t) * p.b, p.a⟩

/-- The pixels within Chebyshev distance `n` of `(i, j)`, the averaging
window of the blur model. -/
def blurWindow (n : ℕ) (buf : Buffer) (i : Fin buf.height)
    (j : Fin buf.width) : Finset (Fin buf.height × Fin buf.width) :=
  Finset.univ.filter
    (fun q => Nat.dist (q.1 : ℕ) (i : ℕ) ≤ n ∧ Nat.dist (q.2 : ℕ) (j : ℕ) ≤ n)

/-- Modelled from the spec: the `blur(r px)` primitive (absent from src/)
as a box blur averaging each channel over the window of radius `n`; the
window of radius `0` is the pixel itself, so radius `0` is the identity. -/
def boxBlur (n : ℕ) (buf : Buffer) : Buffer :=
  { width := buf.width, height := buf.height
    pix := fun i j =>
      ⟨(∑ q in blurWindow n buf i j, (buf.pix q.1 q.2).r)
          / ((blurWindow n buf i j).card : ℚ),
       (∑ q in blurWindow n buf i j, (buf.pix q.1 q.2).g)
          / ((blurWindow n buf i j).card : ℚ),
       (∑ q in blurWindow n buf i j, (buf.pix q.1 q.2).b)
          / ((blurWindow n buf i j).card : ℚ),
       (∑ q in blurWindow n buf i j, (buf.pix q.1 q.2).a)
          / ((blurWindow n buf i j).card : ℚ)⟩ }

/-- Blur at a rational pixel radius: the integer window is the ceiling of
the radius. -/
def blurBuf (radius : ℚ) (buf : Buffer) : Buffer :=
  boxBlur (Int.toNat ⌈radius⌉) buf

/-- Modelled from the spec: applying the composed filter list to a buffer,
in the fixed order of `generateFilterString`: brightness, contrast,
saturate, blur, hue-rotate, sepia, grayscale, invert. -/
def applyFilterList (fv : FilterValues) (buf : Buffer) : Buffer :=
  mapPixels (invertPx fv.invert)
    (mapPixels (grayscalePx fv.grayscale)
      (mapPixels (sepiaPx fv.sepia)
        (mapPixels (hueRotatePx fv.hueRotate)
          (blurBuf fv.blur
            (mapPixels (saturatePx fv.saturation)
              (mapPixels (contrastPx fv.contrast)
                (mapPixels (brightnessPx fv.brightness) buf)))))))

/-! ### Concrete states used by witnesses and counterexamples -/

/-- An editor state about to start a rectangle gesture on a freshly loaded
image: one snapshot in history, cursor at 0. -/
def rectStart : EditorState :=
  { drawingState :=
      { tool := Tool.rectangle, color := "#ff0000", brushSize := 5
        isDrawing := false, lastX := 0, lastY := 0 }
    textElements := [], newText := "", fontSize := 24
    history := [Img.base 0], historyStep := 0, canvas := Img.base 0 }

/-- An editor state with three committed brush strokes (history length 3,
cursor 2), as in the spec's undo scenario. -/
def threeStrokes : EditorState :=
  { drawingState :=
      { tool := Tool.brush, color := "#ff0000", brushSize := 5
        isDrawing := false, lastX := 0, lastY := 0 }
    textElements := [], newText := "", fontSize := 24
    history := [Img.base 1, Img.base 2, Img.base 3], historyStep := 2
    canvas := Img.base 3 }

/-- An editor state with two snapshots and the cursor at 1 (the tail). -/
def twoSnapshots : EditorState :=
  { drawingState :=
      { tool := Tool.brush, color := "#000000", brushSize := 5
        isDrawing := false, lastX := 0, lastY := 0 }
    textElements := [], newText := "", fontSize := 24
    history := [Img.base 4, Img.base 5], historyStep := 1
    canvas := Img.base 5 }

/-- An editor state ready for a text insertion: text tool selected, no
gesture active. -/
def textReady : EditorState :=
  { drawingState :=
      { tool := Tool.text, color := "#0000ff", brushSize := 5
        isDrawing := false, lastX := 0, lastY := 0 }
    textElements := [], newText := "hello", fontSize := 24
    history := [Img.base 7], historyStep := 0, canvas := Img.base 7 }

/-- A session holding an uploaded image, a filtered image and an edited
image at once. -/
def sessionFull : SessionState :=
  { uploadedImage := some "up", croppedImage := none
    filteredImage := some "fi", editedImage := some "ed" }

/-- A session whose current image is an edited buffer (no crop, no
filter). -/
def sessionEdited : SessionState :=
  { uploadedImage := some "up", croppedImage := none
    filteredImage := none, editedImage := some "ed" }

/-- A session with a cropped image and nothing downstream of it. -/
def sessionCropped : SessionState :=
  { uploadedImage := some "up", croppedImage := some "cr"
    filteredImage := none, editedImage := none }

/-! ## Theorems -/

/-- Appending to the end of a list reads back the appended element at the
old length. -/
theorem getD_concat_self (l : List Img) (c : Img) :
    (l ++ [c]).getD l.length Img.undef = c := by
  induction l with
  | nil => rfl
  | cons x xs ih => simp

/-- Claim C4: pushing a new snapshot while the cursor is valid first
truncates every snapshot after the cursor, then appends the new snapshot,
and advances the cursor so that it addresses the appended snapshot. -/
theorem c4_save_truncates_after_cursor (s : EditorState)
    (h0 : 0 ≤ s.historyStep) (h1 : s.historyStep < (s.history.length : ℤ)) :
    (saveToHistory s).history
        = s.history.take (s.historyStep + 1).toNat ++ [s.canvas]
      ∧ (saveToHistory s).historyStep = s.historyStep + 1
      ∧ jsIndex (saveToHistory s).history (saveToHistory s).historyStep
          = s.canvas := by
  have hslice : jsSliceTo s.history (s.historyStep + 1)
      = s.history.take (s.historyStep + 1).toNat := by
    unfold jsSliceTo
    rw [if_neg (by omega)]
  have hlen : (s.history.take (s.historyStep + 1).toNat).length
      = (s.historyStep + 1).toNat := by
    rw [List.length_take]
    omega
  refine ⟨by simp [saveToHistory, hslice], rfl, ?_⟩
  simp only [saveToHistory, hslice]
  unfold jsIndex
  rw [if_pos (by omega)]
  set n := (s.historyStep + 1).toNat with hn
  set l := s.history.take n with hl
  rw [← hlen]
  exact getD_concat_self l s.canvas

/-- Witness for C4: the spec's scenario.  Three committed snapshots with
the cursor at 2, two undos (cursor 0), then a committed brush gesture:
the theorem applies at the pre-commit state, and the resulting history has
length 2 with the redo branch discarded. -/
theorem c4_save_truncates_witness :
    (saveToHistory
        (undo (undo threeStrokes))).history
        = (undo (undo threeStrokes)).history.take
            ((undo (undo threeStrokes)).historyStep + 1).toNat
          ++ [(undo (undo threeStrokes)).canvas]
    ∧ (saveToHistory (undo (undo threeStrokes))).historyStep
        = (undo (undo threeStrokes)).historyStep + 1
    ∧ (saveToHistory (undo (undo threeStrokes))).history.length = 2 :=
  ⟨(c4_save_truncates_after_cursor (undo (undo threeStrokes))
      (by decide) (by decide)).1,
   (c4_save_truncates_after_cursor (undo (undo threeStrokes))
      (by decide) (by decide)).2.1,
   by decide⟩

/-- Claim C5: undo with a positive cursor decrements it by exactly one and
redraws the buffer from the snapshot at the new cursor; redo below the
last index increments by exactly one and redraws symmetrically; undo at
cursor 0 and redo at the tail leave the whole state unchanged. -/
theorem c5_undo_redo_step (s : EditorState) :
    (0 < s.historyStep →
      undo s = { s with
                   historyStep := s.historyStep - 1
                   canvas := jsIndex s.history (s.historyStep - 1) })
    ∧ (s.historyStep = 0 → undo s = s)
    ∧ (s.historyStep < (s.history.length : ℤ) - 1 →
        redo s = { s with
                     historyStep := s.historyStep + 1
                     canvas := jsIndex s.history (s.historyStep + 1) })
    ∧ (s.historyStep = (s.history.length : ℤ) - 1 → redo s = s) := by
  refine ⟨fun h => ?_, fun h => ?_, fun h => ?_, fun h => ?_⟩
  · unfold undo; rw [if_pos h]
  · unfold undo; rw [if_neg (by omega)]
  · unfold redo; rw [if_pos h]
  · unfold redo; rw [if_neg (by omega)]

/-- Witness for C5: a step of undo at cursor 1, a no-op redo at the tail,
and a no-op undo at cursor 0. -/
theorem c5_undo_redo_witness :
    undo twoSnapshots
        = { twoSnapshots with
              historyStep := twoSnapshots.historyStep - 1
              canvas :=
                jsIndex twoSnapshots.history (twoSnapshots.historyStep - 1) }
    ∧ redo twoSnapshots = twoSnapshots
    ∧ undo (undo twoSnapshots) = undo twoSnapshots :=
  ⟨(c5_undo_redo_step twoSnapshots).1 (by decide),
   (c5_undo_redo_step twoSnapshots).2.2.2 (by decide),
   (c5_undo_redo_step (undo twoSnapshots)).2.1 (by decide)⟩

/-- Claim C6: the cropper's source is the session's currently visible
image, and committing a crop clears the filtered and edited references,
making the new cropped buffer the session's current image. -/
theorem c6_crop_commit (s : SessionState) (img : String) (h : img ≠ "") :
    cropperImageSrc s = currentImage s
    ∧ (handleCropComplete s img).filteredImage = none
    ∧ (handleCropComplete s img).editedImage = none
    ∧ currentImage (handleCropComplete s img) = some img := by
  refine ⟨rfl, rfl, rfl, ?_⟩
  simp [currentImage, handleCropComplete, jsOr, jsFalsy, h]

/-- Witness for C6: cropping while a filtered and an edited image exist. -/
theorem c6_crop_commit_witness :
    cropperImageSrc sessionFull = currentImage sessionFull
    ∧ (handleCropComplete sessionFull "cr").filteredImage = none
    ∧ (handleCropComplete sessionFull "cr").editedImage = none
    ∧ currentImage (handleCropComplete sessionFull "cr") = some "cr" :=
  c6_crop_commit sessionFull "cr" (by decide)

/-- Claim C9 (amended): the filter stage's source is the edited image if
present, else the cropped image, else the uploaded image, and never reads
the filtered image; after a filter apply the next filter source is the
cropped-else-uploaded base, so the filter output is replaced rather than
compounded; when no edited image was present before the apply, the second
application's source equals the first's. -/
theorem c9_filter_source_base (s : SessionState) (x : Option String)
    (f : String) :
    filtersImageSrc { s with filteredImage := x } = filtersImageSrc s
    ∧ filtersImageSrc (handleFiltersApply s f)
        = jsOr s.croppedImage s.uploadedImage
    ∧ (s.editedImage = none →
        filtersImageSrc (handleFiltersApply s f) = filtersImageSrc s) := by
  refine ⟨rfl, ?_, fun h => ?_⟩
  · simp [filtersImageSrc, handleFiltersApply, jsOr, jsFalsy]
  · simp [filtersImageSrc, handleFiltersApply, jsOr, jsFalsy, h]

/-- Claim C9 counterexample: with an edited image present, applying a
filter clears the edit layer, so the second filter application's source
(the uploaded image) differs from the first's (the edited image) even
though no crop or edit intervened. -/
theorem c9_edited_base_counterexample :
    filtersImageSrc (handleFiltersApply sessionEdited "fi")
      ≠ filtersImageSrc sessionEdited := by decide

/-- Witness for C9 on a session whose base is a cropped image with no
edit layer: the second application's source equals the first's. -/
theorem c9_filter_source_witness :
    filtersImageSrc { sessionCropped with filteredImage := some "zz" }
        = filtersImageSrc sessionCropped
    ∧ filtersImageSrc (handleFiltersApply sessionCropped "fi")
        = jsOr sessionCropped.croppedImage sessionCropped.uploadedImage
    ∧ filtersImageSrc (handleFiltersApply sessionCropped "fi")
        = filtersImageSrc sessionCropped :=
  ⟨(c9_filter_source_base sessionCropped (some "zz") "fi").1,
   (c9_filter_source_base sessionCropped (some "zz") "fi").2.1,
   (c9_filter_source_base sessionCropped (some "zz") "fi").2.2 rfl⟩

/-- Claim C1 (code behavior at the failing input): a rectangle gesture
starts at (0,0) and the pointer moves to (10,10) and then to (20,20).
Each move does restore the canvas from the committed snapshot
(`history[historyStep]`), but `draw` updates `lastX`/`lastY` on every
move for shape tools too, so the second preview is anchored at the
previous pointer position (10,10) — not at the gesture's start point
(0,0) as claimed. -/
theorem c1_shape_preview_anchor :
    (draw (draw (startDrawing rectStart 0 0 "t1") 10 10) 20 20).canvas
        = Img.strokeRect (Img.base 0) 10 10 10 10 "#ff0000" 5
    ∧ (draw (draw (startDrawing rectStart 0 0 "t1") 10 10) 20 20).canvas
        ≠ Img.strokeRect (Img.base 0) 0 0 20 20 "#ff0000" 5 := by
  have h1 : (draw (draw (startDrawing rectStart 0 0 "t1") 10 10) 20 20).canvas
      = Img.strokeRect (Img.base 0) 10 10 (20 - 10) (20 - 10) "#ff0000" 5 := rfl
  rw [h1]
  constructor
  · rw [Img.strokeRect.injEq]
    norm_num
  · intro h
    rw [Img.strokeRect.injEq] at h
    norm_num at h

/-- Claim C2 counterexample: with a crop region wider than the container,
a drag update leaves the region sticking out of the container, so the
containment invariant does not hold for every region and container size. -/
theorem c2_oversized_region_counterexample :
    ¬ (0 ≤ (handleMouseMove true ⟨0, 0, 500, 200⟩ 0 0 100 100 0 0 400 300).x
        ∧ 0 ≤ (handleMouseMove true ⟨0, 0, 500, 200⟩ 0 0 100 100 0 0 400 300).y
        ∧ (handleMouseMove true ⟨0, 0, 500, 200⟩ 0 0 100 100 0 0 400 300).x
            + (handleMouseMove true ⟨0, 0, 500, 200⟩ 0 0 100 100 0 0 400 300).width
            ≤ 400
        ∧ (handleMouseMove true ⟨0, 0, 500, 200⟩ 0 0 100 100 0 0 400 300).y
            + (handleMouseMove true ⟨0, 0, 500, 200⟩ 0 0 100 100 0 0 400 300).height
            ≤ 300) := by
  norm_num [handleMouseMove, min_def, max_def]

/-- Claim C2 (amended): provided the region fits in the container
(width ≤ containerWidth and height ≤ containerHeight), every drag update
keeps the region inside the container, for every pointer position and
grab offset. -/
theorem c2_crop_clamped_in_bounds (crop : CropArea)
    (dsx dsy cx cy rl rt cw ch : ℚ)
    (hw : crop.width ≤ cw) (hh : crop.height ≤ ch) :
    0 ≤ (handleMouseMove true crop dsx dsy cx cy rl rt cw ch).x
    ∧ 0 ≤ (handleMouseMove true crop dsx dsy cx cy rl rt cw ch).y
    ∧ (handleMouseMove true crop dsx dsy cx cy rl rt cw ch).x
        + (handleMouseMove true crop dsx dsy cx cy rl rt cw ch).width ≤ cw
    ∧ (handleMouseMove true crop dsx dsy cx cy rl rt cw ch).y
        + (handleMouseMove true crop dsx dsy cx cy rl rt cw ch).height ≤ ch := by
  unfold handleMouseMove
  simp only [Bool.true_eq_false, if_false]
  refine ⟨le_max_left 0 _, le_max_left 0 _, ?_, ?_⟩
  · have h1 : max 0 (min (cx - rl - dsx) (cw - crop.width))
        ≤ cw - crop.width :=
      max_le (by linarith) (min_le_right _ _)
    linarith
  · have h1 : max 0 (min (cy - rt - dsy) (ch - crop.height))
        ≤ ch - crop.height :=
      max_le (by linarith) (min_le_right _ _)
    linarith

/-- Witness for C2: a 150-square region dragged far past the bottom-right
corner of a 400 by 300 container stays inside it. -/
theorem c2_crop_clamped_witness :
    0 ≤ (handleMouseMove true ⟨50, 50, 150, 150⟩ 10 10 600 700 0 0 400 300).x
    ∧ 0 ≤ (handleMouseMove true ⟨50, 50, 150, 150⟩ 10 10 600 700 0 0 400 300).y
    ∧ (handleMouseMove true ⟨50, 50, 150, 150⟩ 10 10 600 700 0 0 400 300).x
        + (handleMouseMove true ⟨50, 50, 150, 150⟩ 10 10 600 700 0 0 400 300).width
        ≤ 400
    ∧ (handleMouseMove true ⟨50, 50, 150, 150⟩ 10 10 600 700 0 0 400 300).y
        + (handleMouseMove true ⟨50, 50, 150, 150⟩ 10 10 600 700 0 0 400 300).height
        ≤ 300 :=
  c2_crop_clamped_in_bounds ⟨50, 50, 150, 150⟩ 10 10 600 700 0 0 400 300
    (by decide) (by decide)

/-- Claim C3 counterexample: with the canvas present and a zero-width
rendered box, the mapper divides by zero and produces a non-finite
x coordinate instead of returning (0,0). -/
theorem c3_zero_display_counterexample :
    getCanvasCoordinates true 400 300 0 150 5 7 0 0 ≠ (some 0, some 0) := by
  decide

/-- Claim C3 (amended): the mapper returns (0,0) only when the canvas
reference is absent — that is the code's sole guard.  With the canvas
present, a zero-width or zero-height rendered box makes the corresponding
coordinate non-finite (the division is performed); for nonzero display
dimensions the mapper returns (px * bufW / dispW, py * bufH / dispH). -/
theorem c3_coordinate_mapper (cw ch rw rh cx cy rl rt : ℚ) :
    getCanvasCoordinates false cw ch rw rh cx cy rl rt = (some 0, some 0)
    ∧ (rw = 0 → (getCanvasCoordinates true cw ch rw rh cx cy rl rt).1 = none)
    ∧ (rh = 0 → (getCanvasCoordinates true cw ch rw rh cx cy rl rt).2 = none)
    ∧ (rw ≠ 0 → rh ≠ 0 →
        getCanvasCoordinates true cw ch rw rh cx cy rl rt
          = (some ((cx - rl) * (cw / rw)), some ((cy - rt) * (ch / rh)))) := by
  refine ⟨rfl, fun h => ?_, fun h => ?_, fun h1 h2 => ?_⟩
  · simp [getCanvasCoordinates, qdiv, jsMul, h]
  · simp [getCanvasCoordinates, qdiv, jsMul, h]
  · simp [getCanvasCoordinates, qdiv, jsMul, h1, h2]

/-- Witness for C3, including the spec's scenario: a 400 by 300 buffer
rendered at 200 by 150, pointer at display (50,50), maps to buffer
(100,100). -/
theorem c3_coordinate_mapper_witness :
    getCanvasCoordinates false 400 300 200 150 50 50 0 0 = (some 0, some 0)
    ∧ (getCanvasCoordinates true 400 300 0 150 5 7 0 0).1 = none
    ∧ (getCanvasCoordinates true 400 300 200 0 5 7 0 0).2 = none
    ∧ getCanvasCoordinates true 400 300 200 150 50 50 0 0
        = (some ((50 - 0) * (400 / 200)), some ((50 - 0) * (300 / 150))) :=
  ⟨(c3_coordinate_mapper 400 300 200 150 50 50 0 0).1,
   (c3_coordinate_mapper 400 300 0 150 5 7 0 0).2.1 rfl,
   (c3_coordinate_mapper 400 300 200 0 5 7 0 0).2.2.1 rfl,
   (c3_coordinate_mapper 400 300 200 150 50 50 0 0).2.2.2
     (by decide) (by decide)⟩

/-- Claim C8: with the aspect lock on, changing one export dimension
recomputes the other from the original image's aspect ratio alone; the
previously displayed custom dimensions contribute nothing to the result. -/
theorem c8_aspect_lock_original (orig prev : Dimensions) (w h : ℤ)
    (hw : 0 < orig.width) (hh : 0 < orig.height) :
    updateWidth true orig prev w
        = { width := w
            height :=
              jsRound ((w : ℚ) * ((orig.height : ℚ) / (orig.width : ℚ))) }
    ∧ updateHeight true orig prev h
        = { width :=
              jsRound ((h : ℚ) * ((orig.width : ℚ) / (orig.height : ℚ)))
            height := h } := by
  constructor
  · unfold updateWidth; rw [if_pos ⟨rfl, hw⟩]
  · unfold updateHeight; rw [if_pos ⟨rfl, hh⟩]

/-- Witness for C8: the spec's scenario — original 1600 by 900, width set
to 800, height auto-computes to 450, whatever the displayed custom
dimensions were. -/
theorem c8_aspect_lock_witness :
    updateWidth true ⟨1600, 900⟩ ⟨123, 77⟩ 800 = ⟨800, 450⟩ := by
  rw [(c8_aspect_lock_original ⟨1600, 900⟩ ⟨123, 77⟩ 800 600
        (by decide) (by decide)).1]
  rw [Dimensions.mk.injEq]
  norm_num [jsRound]

/-- Claim C10: a pointer-down with the text tool inserts a text element
and the render pass rasterizes it onto the canvas, but the whole
pointer-down / render / pointer-up sequence leaves the history sequence
and the cursor unchanged: text insertion is never a history step. -/
theorem c10_text_no_history (s : EditorState) (x y : ℚ) (tid : String)
    (hd : s.drawingState.isDrawing = false)
    (ht : s.drawingState.tool = Tool.text) :
    (stopDrawing (renderTextElements (startDrawing s x y tid))).history
        = s.history
    ∧ (stopDrawing (renderTextElements (startDrawing s x y tid))).historyStep
        = s.historyStep
    ∧ (startDrawing s x y tid).textElements
        = s.textElements ++
          [{ id := tid, x := x, y := y
             text := if s.newText = "" then "Sample Text" else s.newText
             color := s.drawingState.color
             fontSize := s.fontSize
             isEditing := true }]
    ∧ (renderTextElements (startDrawing s x y tid)).canvas
        = Img.text
            (s.textElements.foldl
              (fun img te =>
                Img.text img te.x te.y te.text te.color te.fontSize)
              s.canvas)
            x y (if s.newText = "" then "Sample Text" else s.newText)
            s.drawingState.color s.fontSize := by
  unfold startDrawing renderTextElements stopDrawing
  rw [if_pos ht]
  simp [hd, List.foldl_append]

/-- Witness for C10: inserting "hello" with the text tool on a one-entry
history leaves the history and cursor untouched. -/
theorem c10_text_no_history_witness :
    (stopDrawing (renderTextElements (startDrawing textReady 3 4 "t9"))).history
        = textReady.history
    ∧ (stopDrawing
          (renderTextElements (startDrawing textReady 3 4 "t9"))).historyStep
        = textReady.historyStep
    ∧ (startDrawing textReady 3 4 "t9").textElements
        = textReady.textElements ++
          [{ id := "t9", x := 3, y := 4
             text :=
               if textReady.newText = "" then "Sample Text"
               else textReady.newText
             color := textReady.drawingState.color
             fontSize := textReady.fontSize
             isEditing := true }]
    ∧ (renderTextElements (startDrawing textReady 3 4 "t9")).canvas
        = Img.text
            (textReady.textElements.foldl
              (fun img te =>
                Img.text img te.x te.y te.text te.color te.fontSize)
              textReady.canvas)
            3 4
            (if textReady.newText = "" then "Sample Text"
             else textReady.newText)
            textReady.drawingState.color textReady.fontSize :=
  c10_text_no_history textReady 3 4 "t9" rfl rfl

/-- A pointwise transform that fixes every pixel fixes every buffer. -/
theorem mapPixels_of_id (f : Pixel → Pixel) (hf : ∀ p, f p = p)
    (buf : Buffer) : mapPixels f buf = buf := by
  have hp : (fun (i : Fin buf.height) (j : Fin buf.width) =>
      f (buf.pix i j)) = buf.pix := by
    funext i j
    rw [hf]
  show Buffer.mk buf.width buf.height (fun i j => f (buf.pix i j)) = buf
  rw [hp]

/-- Natural distance is at most zero exactly for equal numbers. -/
theorem nat_dist_le_zero (m n : ℕ) : Nat.dist m n ≤ 0 ↔ m = n := by
  simp [Nat.dist]
  omega

/-- The radius-zero blur window of a pixel is the pixel itself. -/
theorem blurWindow_zero (buf : Buffer) (i : Fin buf.height)
    (j : Fin buf.width) : blurWindow 0 buf i j = {(i, j)} := by
  ext q
  simp only [blurWindow, Finset.mem_filter, Finset.mem_univ, true_and,
    Finset.mem_singleton]
  rw [nat_dist_le_zero, nat_dist_le_zero]
  simp [Prod.ext_iff, Fin.ext_iff]

/-- A box blur of radius zero changes nothing. -/
theorem boxBlur_zero (buf : Buffer) : boxBlur 0 buf = buf := by
  refine congrArg (Buffer.mk buf.width buf.height) ?_
  funext i j
  rw [blurWindow_zero]
  simp

/-- A blur at rational radius zero changes nothing. -/
theorem blurBuf_zero (buf : Buffer) : blurBuf 0 buf = buf := by
  unfold blurBuf
  rw [show Int.toNat ⌈(0 : ℚ)⌉ = 0 by simp]
  exact boxBlur_zero buf

/-- Brightness 100% fixes every pixel. -/
theorem brightnessPx_default (p : Pixel) : brightnessPx 100 p = p := by
  cases p with
  | mk r g b a =>
    simp only [brightnessPx, Pixel.mk.injEq]
    refine ⟨by ring, by ring, by ring, trivial⟩

/-- Contrast 100% fixes every pixel. -/
theorem contrastPx_default (p : Pixel) : contrastPx 100 p = p := by
  cases p with
  | mk r g b a =>
    simp only [contrastPx, Pixel.mk.injEq]
    refine ⟨by ring, by ring, by ring, trivial⟩

/-- Saturation 100% fixes every pixel. -/
theorem saturatePx_default (p : Pixel) : saturatePx 100 p = p := by
  cases p with
  | mk r g b a =>
    simp only [saturatePx, lumin, Pixel.mk.injEq]
    refine ⟨by ring, by ring, by ring, trivial⟩

/-- Hue rotation by zero degrees fixes every pixel. -/
theorem hueRotatePx_default (p : Pixel) : hueRotatePx 0 p = p := by
  cases p with
  | mk r g b a =>
    simp only [hueRotatePx, cosRat, sinRat, piRat, Pixel.mk.injEq]
    refine ⟨by ring, by ring, by ring, trivial⟩

/-- Sepia 0% fixes every pixel. -/
theorem sepiaPx_default (p : Pixel) : sepiaPx 0 p = p := by
  cases p with
  | mk r g b a =>
    simp only [sepiaPx, Pixel.mk.injEq]
    refine ⟨by ring, by ring, by ring, trivial⟩

/-- Grayscale 0% fixes every pixel. -/
theorem grayscalePx_default (p : Pixel) : grayscalePx 0 p = p := by
  cases p with
  | mk r g b a =>
    simp only [grayscalePx, lumin, Pixel.mk.injEq]
    refine ⟨by ring, by ring, by ring, trivial⟩

/-- Invert 0% fixes every pixel. -/
theorem invertPx_default (p : Pixel) : invertPx 0 p = p := by
  cases p with
  | mk r g b a =>
    simp only [invertPx, Pixel.mk.injEq]
    refine ⟨by ring, by ring, by ring, trivial⟩

/-- Claim C7: applying the default filter parameter set (brightness 100,
contrast 100, saturation 100, blur 0, hue-rotate 0, sepia 0, grayscale 0,
invert 0), composed in the fixed order of `generateFilterString`, yields
a buffer pixel-identical to the input. -/
theorem c7_default_filters_identity (buf : Buffer) :
    applyFilterList defaultFilters buf = buf := by
  simp only [applyFilterList, defaultFilters]
  rw [mapPixels_of_id _ brightnessPx_default,
      mapPixels_of_id _ contrastPx_default,
      mapPixels_of_id _ saturatePx_default,
      blurBuf_zero,
      mapPixels_of_id _ hueRotatePx_default,
      mapPixels_of_id _ sepiaPx_default,
      mapPixels_of_id _ grayscalePx_default,
      mapPixels_of_id _ invertPx_default]

end ImageProcessing
